import Mathlib

/-!
Verification of the parallel chat-bot test runner.

Shallow embedding of the orchestration core of the repository
(`testcases/test_chat_parallel.py` and `pages/ChatBotPage.py`):

* keyword-overlap response scoring (`ChatBotPage.evaluate_response_quality`),
* per-question test execution (`ChatBotPage.test_single_question`,
  `ChatBotPage.test_multiple_questions`),
* the per-user session task (`ParallelChatBotTester._test_single_user`),
* the dispatcher and result aggregation (`ParallelChatBotTester.run_parallel_tests`),
* question sampling (`random.sample(self.test_data, min(num_questions, len(...)))`).

Python floats are modelled as the exact rational values of the IEEE-754
binary64 numbers the program computes.  The pass-threshold decision, where
double arithmetic visibly diverges from exact arithmetic (in binary64,
`(0.1 + 0.7) / 2` is strictly below the double of `0.4` although the exact
mean is exactly 2/5), is modelled with explicit round-to-nearest-even
binary64 rounding (`roundDouble`).  The per-field comparisons against the
literal `0.3` are kept over the exact ratios: a per-field score is a single
correctly-rounded division `m/k` of keyword counts, and its double compares
against the double of `0.3` exactly as the exact ratio compares against
3/10 for every keyword-set size a string of realizable length can produce
(a disagreement needs `m/k` strictly between the double of `0.3` and 3/10,
an interval of width below `2 ^ (-56)`).  Wall-clock fields
(`time_response`, `start_time`, `end_time`, `duration_seconds`) are timing
data and are not modelled.  External effects (browser actions, Excel
writing, logging) are modelled by environment records describing what the
external collaborators do at each interaction point.
-/

namespace AiknowParallel

/-! ## Python string helpers

`str.split()` (no argument) splits on runs of whitespace and discards empty
chunks; `str.strip()` removes leading and trailing whitespace.  We model them
by structural recursion over the character list of the string. -/

/-- One step of Python `str.split()`: `cur` is the (reversed) current word. -/
def splitWordsAux : List Char → List Char → List String
  | [], cur => if cur.isEmpty then [] else [String.mk cur.reverse]
  | c :: rest, cur =>
    if c.isWhitespace then
      if cur.isEmpty then splitWordsAux rest []
      else String.mk cur.reverse :: splitWordsAux rest []
    else splitWordsAux rest (c :: cur)

/-- Python `s.split()` (whitespace split, empty chunks discarded). -/
def pySplit (s : String) : List String :=
  splitWordsAux s.data []

/-- Python `s.strip()`. -/
def pyStrip (s : String) : String :=
  String.mk (((s.data.dropWhile Char.isWhitespace).reverse.dropWhile Char.isWhitespace).reverse)

/-! ## Binary64 rounding

The scores this development feeds to the rounding function are ratios in
`[0, 1]`, their sums in `[0, 2]`, and the literal `0.4` — all strictly
inside the positive normal range of binary64, far from subnormals and
overflow, so round-to-nearest-even on the true rational value is the exact
semantics of the corresponding float operations. -/

/-- Round a rational to the nearest integer, ties to the even integer
(the IEEE-754 default rounding on the scaled mantissa). -/
def roundNearestEven (x : ℚ) : ℤ :=
  if x - ⌊x⌋ < 1 / 2 then ⌊x⌋
  else if x - ⌊x⌋ > 1 / 2 then ⌊x⌋ + 1
  else if 2 ∣ ⌊x⌋ then ⌊x⌋ else ⌊x⌋ + 1

/-- The binary64 (IEEE-754 double) value nearest to a rational: scale by the
unit in the last place of the 53-bit mantissa at the value's binade and
round to nearest, ties to even.  Exact for the positive normal range (the
only range this development uses); `0` maps to `0`, and non-positive inputs
(which never arise here) are collapsed to `0`. -/
def roundDouble (q : ℚ) : ℚ :=
  if q ≤ 0 then 0
  else ((roundNearestEven (q / 2 ^ (Int.log 2 q - 52)) : ℤ) : ℚ) * 2 ^ (Int.log 2 q - 52)

/-! ## `ChatBotPage.evaluate_response_quality` -/

/-- The evaluation dictionary built by `evaluate_response_quality`
(`ChatBotPage.py` lines 236–242). -/
structure Evaluation where
  passed : Bool
  score : ℚ
  context_match : Bool
  answer_match : Bool
  details : String
  deriving DecidableEq, Repr

/-- `set(expected.split())`: the distinct words of a field. -/
def keywordSet (s : String) : List String :=
  (pySplit s).dedup

/-- The per-field overlap score computed in `evaluate_response_quality`
(lines 250–258 for the context field, 262–270 for the answer field):
`len(keywords ∩ response_words) / len(keywords)`, and `0` when the field has
no keywords (empty or whitespace-only expected text). -/
def overlapScore (expected actual : String) : ℚ :=
  let kws := keywordSet expected
  if kws.isEmpty then 0
  else ((kws.filter (fun w => decide (w ∈ pySplit actual))).length : ℚ) / (kws.length : ℚ)

/-- Render a score with two decimals, for the `details` text (the Python
code formats each score with the two-decimal float format; approximated
here on `ℚ` with round-half-up). -/
def fmtScore2 (q : ℚ) : String :=
  let cents : Int := ⌊q * 100 + 1 / 2⌋
  let frac : Int := cents % 100
  toString (cents / 100) ++ "." ++ (if frac < 10 then "0" else "") ++ toString frac

/-- `ChatBotPage.evaluate_response_quality` (lines 219–282).
An empty or whitespace-only actual response short-circuits with the
"Empty response" evaluation; otherwise each field's overlap score is
compared strictly against `0.3` for the match flag, and the overall score
is `(context_match_score + answer_match_score) / 2` computed in binary64 —
each per-field division rounds to a double, the sum rounds to a double, the
halving rounds to a double — compared against the double of the literal
`0.4`.  The per-field `> 0.3` comparisons are stated on the exact ratios,
which agrees with the double comparison for every realizable keyword-set
size (see the module comment); the mean threshold, where the two semantics
demonstrably differ, carries the explicit rounding. -/
def evaluate_response_quality (actual_response expected_context expected_result : String) :
    Evaluation :=
  if actual_response = "" ∨ (pyStrip actual_response).length = 0 then
    { passed := false, score := 0, context_match := false, answer_match := false,
      details := "Empty response" }
  else
    let context_match_score := overlapScore expected_context actual_response
    let answer_match_score := overlapScore expected_result actual_response
    let score := roundDouble ((roundDouble (roundDouble context_match_score +
      roundDouble answer_match_score)) / 2)
    { passed := decide (score ≥ roundDouble (4 / 10))
      score := score
      context_match := decide (context_match_score > 3 / 10)
      answer_match := decide (answer_match_score > 3 / 10)
      details := "Context match: " ++ fmtScore2 context_match_score ++
        ", Answer match: " ++ fmtScore2 answer_match_score }

/-! ## `ChatBotPage.test_single_question`

One question's execution depends on the browser/network environment: whether
an exception is raised inside the `try` block (e.g. `send_question` failing),
whether `wait_for_response` observed the response before its timeout, the
response and context texts scraped by `get_latest_response`, and the bytes
produced by `take_screenshot`.

-/

/-- Environment of a single question attempt.

Modelled from the spec: `BaseDriver.take_screenshot` lives in the `base`
package, which is not among the repository sources available here; per the
spec a screenshot is "captured ... as evidence", so it is modelled as an
opaque, always-available capture (a `Nat` standing for the image bytes)
supplied by the environment. -/
structure QuestionEnv where
  /-- An exception is raised inside the `try` block (before the response
  handling completes), e.g. by `send_question`. -/
  raisesError : Bool
  /-- `str(e)` of that exception. -/
  errMsg : String
  /-- `wait_for_response` returned `True` (response observed before the
  `RESPONSE_TIMEOUT`). -/
  responseReceived : Bool
  /-- `get_latest_response()["response"]`. -/
  response : String
  /-- `get_latest_response()["context"]`. -/
  contextText : String
  /-- Opaque bytes returned by `take_screenshot`. -/
  screenshot : Nat
  deriving DecidableEq, Repr

/-- The result dictionary built by `test_single_question`
(`ChatBotPage.py` lines 307–319); the wall-clock `time_response` field and
the pass-through `STT` / `Test Data Describe` / `Data Type` keys added by
`test_multiple_questions` are timing/reporting data, not modelled. -/
structure SessionResult where
  question : String
  expected_context : String
  expected_result : String
  actual_response : String
  actual_context : String
  test_result : String
  model : String
  evident : Option Nat
  evaluation_score : ℚ
  evaluation_details : String
  deriving DecidableEq, Repr

/-- `ChatBotPage.test_single_question` (lines 284–370): send the question,
wait for the response; on timeout record a `"timeout"` result with a
screenshot and return; otherwise scrape the response, screenshot, and score
it; an exception inside the `try` block yields an `"error"` result. -/
def test_single_question (env : QuestionEnv)
    (question expected_context expected_result model_name : String) : SessionResult :=
  let result : SessionResult :=
    { question := question, expected_context := expected_context
      expected_result := expected_result, actual_response := "", actual_context := ""
      test_result := "fail", model := model_name, evident := none
      evaluation_score := 0, evaluation_details := "" }
  if env.raisesError then
    -- `except Exception as e:` branch (lines 364–368)
    { result with test_result := "error", evaluation_details := env.errMsg
                  evident := some env.screenshot }
  else if !env.responseReceived then
    -- timeout branch (lines 333–337)
    { result with test_result := "timeout", evident := some env.screenshot }
  else
    let result := { result with actual_response := env.response
                                actual_context := env.contextText
                                evident := some env.screenshot }
    if env.response ≠ "" then
      let evaluation :=
        evaluate_response_quality env.response expected_context expected_result
      { result with evaluation_score := evaluation.score
                    evaluation_details := evaluation.details
                    test_result := if evaluation.passed then "pass" else "fail" }
    else
      { result with test_result := "fail", evaluation_details := "Empty response" }

/-- One row of the question dataset (`ReadChatData.read_data` record, the
keys used by `test_multiple_questions`). -/
structure QuestionData where
  question : String
  expected_context : String
  expected_result : String
  deriving DecidableEq, Repr

/-- `ChatBotPage.test_multiple_questions` (lines 372–419): run every sampled
question in sequence, one result per question, regardless of individual
outcomes.  Each question is paired with its environment; the enumeration
index is only used as `response_number` for the wait, whose outcome the
environment's `responseReceived` already models. -/
def test_multiple_questions (questions_data : List (QuestionData × QuestionEnv))
    (model_name : String) : List SessionResult :=
  questions_data.map fun p =>
    test_single_question p.2 p.1.question p.1.expected_context p.1.expected_result model_name

/-! ## `ParallelChatBotTester._test_single_user`

The session task's `try` block can raise at several stages; the `except`
clause catches any such exception and the function always returns a
`(user_name, success, results)` tuple — the Python `results` variable keeps
whatever value it had when the exception was raised. -/

/-- Stages of `_test_single_user`'s `try` block at which an exception can be
raised (`test_chat_parallel.py` lines 124–167). -/
inductive Stage
  /-- `self._create_driver()` / `driver.get` (lines 128–129). -/
  | createDriver
  /-- `login_page.do_login(...)` itself raising (line 133). -/
  | login
  /-- navigation to the chat window (lines 140–144). -/
  | navigate
  /-- `random.sample` (lines 147–150). -/
  | sampleQ
  /-- `test_multiple_questions` (lines 154–157). -/
  | runQuestions
  /-- `export_chatbot_results` (lines 160–164). -/
  | export
  deriving DecidableEq, Repr

/-- Environment of one session task: at most one stage raises, the login may
report an authentication error (`do_login` returning a non-empty error
text), and the sampled questions with their per-question environments. -/
structure SessionEnv where
  raiseAt : Option Stage
  loginError : Bool
  questions : List (QuestionData × QuestionEnv)
  modelName : String
  deriving DecidableEq, Repr

/-- `(user_name, success, results)` — the tuple returned by
`_test_single_user`, the spec's Session Outcome. -/
structure SessionOutcome where
  user : String
  success : Bool
  results : List SessionResult
  deriving DecidableEq, Repr

/-- How the `try` block of `_test_single_user` exits: an exception (carrying
the value of the `results` variable at that moment), the early
`return user_name, False, []` on a login error, or normal completion. -/
inductive BodyExit
  | raised (resultsAtRaise : List SessionResult)
  | earlyReturn (outcome : SessionOutcome)
  | completed (results : List SessionResult)
  deriving DecidableEq, Repr

/-- The `try` block of `_test_single_user` (lines 124–167), stage by stage:
driver creation, login (early return on a reported login error), navigation,
sampling, the question loop (which assigns `results`), and result export. -/
def sessionTryBody (env : SessionEnv) (user_name : String) : BodyExit :=
  if env.raiseAt = some .createDriver then .raised []
  else if env.raiseAt = some .login then .raised []
  else if env.loginError then .earlyReturn ⟨user_name, false, []⟩
  else if env.raiseAt = some .navigate then .raised []
  else if env.raiseAt = some .sampleQ then .raised []
  else if env.raiseAt = some .runQuestions then .raised []
  else if env.raiseAt = some .export then
    .raised (test_multiple_questions env.questions env.modelName)
  else .completed (test_multiple_questions env.questions env.modelName)

/-- `ParallelChatBotTester._test_single_user` (lines 101–177): the `except`
clause converts any exception into `success = False` (keeping the current
`results`), the `finally` clause quits the driver, and the function returns
`(user_name, success, results)` on every path — it never re-raises. -/
def test_single_user (env : SessionEnv) (user_name : String) : SessionOutcome :=
  match sessionTryBody env user_name with
  | .raised results => ⟨user_name, false, results⟩
  | .earlyReturn outcome => outcome
  | .completed results => ⟨user_name, true, results⟩

/-! ## `ParallelChatBotTester.run_parallel_tests` -/

/-- The per-credential outcomes: one future per `(user_name, password)` pair
submitted to the pool, each resolving to `_test_single_user`'s return value
(the password only feeds the login form, so a credential is represented by
its user name paired with its session environment). -/
def sessionOutcomes (roster : List (String × SessionEnv)) : List SessionOutcome :=
  roster.map fun p => test_single_user p.2 p.1

/-- The summary dictionary of `run_parallel_tests` (lines 242–254), minus the
wall-clock fields (`start_time`, `end_time`, `duration_seconds`) and the
echoed parameters (`questions_per_user`, `max_workers`). -/
structure RunSummary where
  total_users : Nat
  successful_users : Nat
  failed_users : Nat
  total_tests : Nat
  passed_tests : Nat
  failed_tests : Nat
  deriving DecidableEq, Repr

/-- The `all_results` accumulator: results are extended only for outcomes
with `success = True` (lines 226–232), in completion order. -/
def allResults (completed : List SessionOutcome) : List SessionResult :=
  (completed.filter (fun o => o.success)).flatMap (fun o => o.results)

/-- The `as_completed` loop and summary construction of `run_parallel_tests`
(lines 220–254), folded over the outcomes in completion order:
`success_count`/`failed_count` count the success flags, and the test counts
are taken over `all_results`. -/
def aggregate (total_users : Nat) (completed : List SessionOutcome) : RunSummary :=
  { total_users := total_users
    successful_users := completed.countP (fun o => o.success)
    failed_users := completed.countP (fun o => !o.success)
    total_tests := (allResults completed).length
    passed_tests := (allResults completed).countP (fun r => r.test_result = "pass")
    failed_tests := (allResults completed).countP (fun r => r.test_result = "fail") }

/-- `ParallelChatBotTester.run_parallel_tests` (lines 179–271): submit one
task per credential, collect the outcomes as they complete (in an arbitrary
completion order), and build the summary.  The completion order is an
explicit argument; the dispatcher-level theorems quantify over every
permutation of the submitted tasks' outcomes. -/
def run_parallel_tests (roster : List (String × SessionEnv))
    (completed : List SessionOutcome) : RunSummary :=
  aggregate roster.length completed

/-! ## Question sampling

`_test_single_user` draws its questions with
`random.sample(self.test_data, min(num_questions, len(self.test_data)))`
(lines 147–150).  `random.sample(population, k)` returns `k` elements chosen
from distinct positions of the population, without replacement.  The
randomness is external: the model takes the drawn positions as a parameter
constrained by `random.sample`'s contract. -/

/-- The list of records at the drawn positions. -/
def random_sample (test_data : List QuestionData) (draw : List Nat) : List QuestionData :=
  draw.map fun i => test_data.getD i ⟨"", "", ""⟩

/-- The contract of `random.sample(test_data, min(num_questions, len(test_data)))`:
the drawn positions are pairwise distinct, in range, and there are exactly
`min num_questions test_data.length` of them. -/
def ValidDraw (test_data : List QuestionData) (num_questions : Nat) (draw : List Nat) : Prop :=
  draw.Nodup ∧ (∀ i ∈ draw, i < test_data.length) ∧
    draw.length = min num_questions test_data.length

instance (test_data : List QuestionData) (num_questions : Nat) (draw : List Nat) :
    Decidable (ValidDraw test_data num_questions draw) :=
  inferInstanceAs (Decidable (_ ∧ _ ∧ _))

/-! ## Spec-side scoring formula

The spec states the per-field score as "|expected-field keyword set
intersected with response word set| / |expected-field keyword set|", 0 when
the expected field is empty.  `specFieldScore` is that sentence written with
finite sets, to be compared against the code's `overlapScore`. -/

/-- The per-field overlap score exactly as the spec words it. -/
def specFieldScore (expected actual : String) : ℚ :=
  if (pySplit expected).toFinset = ∅ then 0
  else (((pySplit expected).toFinset ∩ (pySplit actual).toFinset).card : ℚ) /
    ((pySplit expected).toFinset.card : ℚ)

/-! ## Concrete environments used by counterexamples and witnesses -/

/-- A question attempt whose response-wait times out. -/
def timeoutQEnv : QuestionEnv :=
  { raisesError := false, errMsg := "", responseReceived := false
    response := "", contextText := "", screenshot := 7 }

/-- A question attempt that raises inside the `try` block. -/
def errorQEnv : QuestionEnv :=
  { raisesError := true, errMsg := "boom", responseReceived := false
    response := "", contextText := "", screenshot := 3 }

/-- A question attempt that answers normally. -/
def okQEnv : QuestionEnv :=
  { raisesError := false, errMsg := "", responseReceived := true
    response := "w1 w2 q", contextText := "ctx", screenshot := 5 }

/-- A session whose `export_chatbot_results` call raises after the question
loop has already assigned `results`. -/
def exportFailSessionEnv : SessionEnv :=
  { raiseAt := some .export, loginError := false
    questions := [(⟨"q1", "c1", "a1"⟩, errorQEnv)], modelName := "" }

/-- A session that completes normally with no questions. -/
def cleanSessionEnv : SessionEnv :=
  { raiseAt := none, loginError := false, questions := [], modelName := "" }

/-- A session whose driver creation raises. -/
def crashSessionEnv : SessionEnv :=
  { raiseAt := some .createDriver, loginError := false, questions := [], modelName := "" }

/-- The spec's Scenario A dataset: 5 questions. -/
def scenarioAData : List QuestionData :=
  [⟨"q1", "c1", "a1"⟩, ⟨"q2", "c2", "a2"⟩, ⟨"q3", "c3", "a3"⟩,
   ⟨"q4", "c4", "a4"⟩, ⟨"q5", "c5", "a5"⟩]

/-- A session result produced by a timed-out question. -/
def timeoutResultW : SessionResult :=
  test_single_question timeoutQEnv "q" "c" "a" ""

/-- A one-outcome completion list containing a timed-out result. -/
def completedW : List SessionOutcome :=
  [⟨"u", true, [timeoutResultW]⟩]

/-- An actual response matching 1 of 10 context keywords and 7 of 10 answer
keywords: per-field scores 1/10 and 7/10, whose exact mean is exactly 2/5
while the binary64 mean lands just below the double of `0.4`. -/
def meanBoundaryActual : String := "c1 a1 a2 a3 a4 a5 a6 a7"

/-- Ten distinct expected-context keywords, one of which the response has. -/
def meanBoundaryContext : String := "c1 c2 c3 c4 c5 c6 c7 c8 c9 c10"

/-- Ten distinct expected-answer keywords, seven of which the response has. -/
def meanBoundaryAnswer : String := "a1 a2 a3 a4 a5 a6 a7 a8 a9 a10"

/-! ## Helper lemmas -/

/-- `overlapScore` is the ratio of the matched-keyword count to the keyword
count, expressed through concrete counts. -/
theorem overlapScore_eq_div (e a : String) (m k : Nat)
    (hm : ((keywordSet e).filter (fun w => decide (w ∈ pySplit a))).length = m)
    (hk : (keywordSet e).length = k) (hk0 : k ≠ 0) :
    overlapScore e a = (m : ℚ) / (k : ℚ) := by
  have hne : (keywordSet e).isEmpty = false := by
    cases hkw : keywordSet e with
    | nil => rw [hkw] at hk; simp at hk; exact absurd hk.symm hk0
    | cons x xs => simp [List.isEmpty]
  simp only [overlapScore, hne, Bool.false_eq_true, if_false, hm, hk]

/-- `overlapScore` is `0` when the expected field has no keywords. -/
theorem overlapScore_eq_zero (e a : String) (hk : keywordSet e = []) :
    overlapScore e a = 0 := by
  simp [overlapScore, hk]

/-- Unfolding of `evaluate_response_quality` on a non-blank actual response. -/
theorem evaluate_nonempty (a ec er : String)
    (h : ¬(a = "" ∨ (pyStrip a).length = 0)) :
    evaluate_response_quality a ec er =
      { passed := decide (roundDouble ((roundDouble (roundDouble (overlapScore ec a) +
          roundDouble (overlapScore er a))) / 2) ≥ roundDouble (4 / 10))
        score := roundDouble ((roundDouble (roundDouble (overlapScore ec a) +
          roundDouble (overlapScore er a))) / 2)
        context_match := decide (overlapScore ec a > 3 / 10)
        answer_match := decide (overlapScore er a > 3 / 10)
        details := "Context match: " ++ fmtScore2 (overlapScore ec a) ++
          ", Answer match: " ++ fmtScore2 (overlapScore er a) } := by
  simp only [evaluate_response_quality, if_neg h]

/-- Characterize `roundNearestEven` when the value sits in the lower half of
its integer gap. -/
theorem roundNearestEven_eq_floor (x : ℚ) (n : ℤ)
    (h1 : (n : ℚ) ≤ x) (h2 : x < (n : ℚ) + 1 / 2) :
    roundNearestEven x = n := by
  have hf : ⌊x⌋ = n := Int.floor_eq_iff.2 ⟨h1, by linarith⟩
  rw [roundNearestEven, hf, if_pos (by linarith)]

/-- Characterize `roundNearestEven` when the value sits in the upper half of
its integer gap. -/
theorem roundNearestEven_eq_ceil (x : ℚ) (n : ℤ)
    (h1 : (n : ℚ) + 1 / 2 < x) (h2 : x < (n : ℚ) + 1) :
    roundNearestEven x = n + 1 := by
  have hf : ⌊x⌋ = n := Int.floor_eq_iff.2 ⟨by linarith, by linarith⟩
  rw [roundNearestEven, hf, if_neg (by linarith), if_pos (by linarith)]

/-- Evaluate `roundDouble` once the binade (the exponent `e` with
`2 ^ e ≤ q < 2 ^ (e + 1)`) is known. -/
theorem roundDouble_of_bounds (q : ℚ) (e : ℤ) (h0 : 0 < q)
    (h1 : (2 : ℚ) ^ e ≤ q) (h2 : q < (2 : ℚ) ^ (e + 1)) :
    roundDouble q =
      ((roundNearestEven (q / 2 ^ (e - 52)) : ℤ) : ℚ) * 2 ^ (e - 52) := by
  have hle : e ≤ Int.log 2 q := by
    rw [← Int.zpow_le_iff_le_log one_lt_two h0]
    exact_mod_cast h1
  have hlt : Int.log 2 q < e + 1 := by
    rw [← Int.lt_zpow_iff_log_lt one_lt_two h0]
    exact_mod_cast h2
  have hlog : Int.log 2 q = e := by omega
  rw [roundDouble, if_neg (not_le.2 h0), hlog]

/-- The code's per-field score coincides with the spec's set-intersection
formula. -/
theorem overlapScore_eq_spec (e a : String) :
    overlapScore e a = specFieldScore e a := by
  by_cases hk : keywordSet e = []
  · have hf : (pySplit e).toFinset = ∅ := by
      rw [List.toFinset_eq_empty_iff]
      exact (List.dedup_eq_nil _).1 hk
    rw [overlapScore_eq_zero e a hk, specFieldScore, if_pos hf]
  · have hne : ¬((pySplit e).toFinset = ∅) := by
      rw [List.toFinset_eq_empty_iff]
      intro h0
      exact hk (by simp [keywordSet, h0])
    have hnodup : ((keywordSet e).filter (fun w => decide (w ∈ pySplit a))).Nodup :=
      (List.nodup_dedup (pySplit e)).filter _
    have hsets : ((keywordSet e).filter (fun w => decide (w ∈ pySplit a))).toFinset =
        (pySplit e).toFinset ∩ (pySplit a).toFinset := by
      ext x
      simp [keywordSet, List.mem_filter, List.mem_dedup, List.mem_toFinset]
    have hnum : ((keywordSet e).filter (fun w => decide (w ∈ pySplit a))).length =
        ((pySplit e).toFinset ∩ (pySplit a).toFinset).card := by
      rw [← hsets, List.card_toFinset, hnodup.dedup]
    have hden : (keywordSet e).length = (pySplit e).toFinset.card := by
      rw [List.card_toFinset]; rfl
    have hkl : (keywordSet e).length ≠ 0 := by
      intro h0
      exact hk (List.length_eq_zero.1 h0)
    rw [overlapScore_eq_div e a _ _ rfl rfl hkl, specFieldScore, if_neg hne, hnum, hden]

/-- `pyStrip` of the empty string is empty. -/
theorem pyStrip_empty : pyStrip "" = "" := rfl

/-- The success flag of a session task: true exactly when no stage raised
and the login reported no error. -/
theorem test_single_user_success (env : SessionEnv) (u : String) :
    (test_single_user env u).success = true ↔
      env.raiseAt = none ∧ env.loginError = false := by
  rcases hr : env.raiseAt with _ | s
  · cases hl : env.loginError <;>
      simp [test_single_user, sessionTryBody, hr, hl]
  · cases s <;> cases hl : env.loginError <;>
      simp [test_single_user, sessionTryBody, hr, hl]

/-- A session task always reports the credential it was submitted for. -/
theorem test_single_user_user (env : SessionEnv) (u : String) :
    (test_single_user env u).user = u := by
  rcases hr : env.raiseAt with _ | s
  · cases hl : env.loginError <;>
      simp [test_single_user, sessionTryBody, hr, hl]
  · cases s <;> cases hl : env.loginError <;>
      simp [test_single_user, sessionTryBody, hr, hl]

/-- A session with no raising stage and no login error completes with its
full question results. -/
theorem test_single_user_clean (env : SessionEnv) (u : String)
    (hr : env.raiseAt = none) (hl : env.loginError = false) :
    test_single_user env u =
      ⟨u, true, test_multiple_questions env.questions env.modelName⟩ := by
  simp [test_single_user, sessionTryBody, hr, hl]

/-- Aggregation only depends on the multiset of outcomes. -/
theorem aggregate_perm (total : Nat) {l₁ l₂ : List SessionOutcome}
    (h : l₁.Perm l₂) : aggregate total l₁ = aggregate total l₂ := by
  have hall : (allResults l₁).Perm (allResults l₂) := by
    unfold allResults
    exact (h.filter (fun o => o.success)).flatMap_right (fun o => o.results)
  unfold aggregate
  rw [h.countP_eq, h.countP_eq, hall.length_eq, hall.countP_eq, hall.countP_eq]

/-- Pointwise-equal predicates count equally. -/
theorem countP_congr_bool {α : Type} (l : List α) (p q : α → Bool)
    (h : ∀ a ∈ l, p a = q a) : l.countP p = l.countP q :=
  List.countP_congr (fun x hx => by rw [h x hx])

/-- Every verdict produced by `test_single_question` is one of the four
verdict strings. -/
theorem test_single_question_verdict (env : QuestionEnv)
    (q ec er mn : String) :
    (test_single_question env q ec er mn).test_result ∈
      (["pass", "fail", "timeout", "error"] : List String) := by
  by_cases h1 : env.raisesError
  · simp [test_single_question, h1]
  · by_cases h2 : env.responseReceived
    · by_cases h3 : env.response = ""
      · simp [test_single_question, h1, h2, h3]
      · by_cases h4 : (evaluate_response_quality env.response ec er).passed <;>
          simp [test_single_question, h1, h2, h3, h4]
    · simp [test_single_question, h1, h2]

/-- For a list of results whose verdicts lie in the four verdict strings,
the four verdict counts partition the list. -/
theorem countP_verdict_partition (rs : List SessionResult)
    (h : ∀ r ∈ rs, r.test_result ∈ (["pass", "fail", "timeout", "error"] : List String)) :
    rs.countP (fun r => r.test_result = "pass") +
      rs.countP (fun r => r.test_result = "fail") +
      rs.countP (fun r => r.test_result = "timeout") +
      rs.countP (fun r => r.test_result = "error") = rs.length := by
  induction rs with
  | nil => simp
  | cons r rs ih =>
    have hr := h r (List.mem_cons_self r rs)
    have hrs := ih (fun x hx => h x (List.mem_cons_of_mem r hx))
    simp only [List.countP_cons, List.length_cons]
    simp only [List.mem_cons, List.mem_singleton, List.not_mem_nil, or_false] at hr
    rcases hr with h0 | h0 | h0 | h0 <;> simp [h0] <;> omega

/-! ## Claim theorems -/

/-- C3 (counterexample): the per-field exact scores 1/10 and 7/10 have exact
mean exactly 2/5 ≥ 0.4, so the claim predicts a pass verdict — but the
program evaluates the mean in binary64, where `(0.1 + 0.7) / 2` lands
strictly below the double of `0.4`, and fails.  The claimed iff "pass ⟺
mean of the two per-field scores ≥ 0.4" is false of the program at this
input. -/
theorem scoring_mean_threshold_counterexample :
    (specFieldScore meanBoundaryContext meanBoundaryActual +
      specFieldScore meanBoundaryAnswer meanBoundaryActual) / 2 = 2 / 5 ∧
    ((2 : ℚ) / 5 ≥ 4 / 10) ∧
    (evaluate_response_quality meanBoundaryActual
      meanBoundaryContext meanBoundaryAnswer).passed = false := by
  have h110 : overlapScore meanBoundaryContext meanBoundaryActual = 1 / 10 := by
    rw [overlapScore_eq_div meanBoundaryContext meanBoundaryActual 1 10
      (by decide) (by decide) (by decide)]
    norm_num
  have h710 : overlapScore meanBoundaryAnswer meanBoundaryActual = 7 / 10 := by
    rw [overlapScore_eq_div meanBoundaryAnswer meanBoundaryActual 7 10
      (by decide) (by decide) (by decide)]
    norm_num
  have hf1 : roundDouble (1 / 10) = 7205759403792794 / 72057594037927936 := by
    rw [roundDouble_of_bounds (1 / 10) (-4) (by norm_num) (by norm_num) (by norm_num)]
    have hx : (1 / 10 : ℚ) / 2 ^ ((-4 : ℤ) - 52) = 72057594037927936 / 10 := by
      norm_num
    rw [hx, roundNearestEven_eq_ceil _ 7205759403792793 (by norm_num) (by norm_num)]
    norm_num
  have hf7 : roundDouble (7 / 10) = 6305039478318694 / 9007199254740992 := by
    rw [roundDouble_of_bounds (7 / 10) (-1) (by norm_num) (by norm_num) (by norm_num)]
    have hx : (7 / 10 : ℚ) / 2 ^ ((-1 : ℤ) - 52) = 63050394783186944 / 10 := by
      norm_num
    rw [hx, roundNearestEven_eq_floor _ 6305039478318694 (by norm_num) (by norm_num)]
    norm_num
  have hfsum : roundDouble (7205759403792794 / 72057594037927936 +
      6305039478318694 / 9007199254740992) = 7205759403792793 / 9007199254740992 := by
    rw [roundDouble_of_bounds _ (-1) (by norm_num) (by norm_num) (by norm_num)]
    have hx : (7205759403792794 / 72057594037927936 +
        6305039478318694 / 9007199254740992 : ℚ) / 2 ^ ((-1 : ℤ) - 52) =
        57646075230342346 / 8 := by
      norm_num
    rw [hx, roundNearestEven_eq_floor _ 7205759403792793 (by norm_num) (by norm_num)]
    norm_num
  have hfhalf : roundDouble ((7205759403792793 / 9007199254740992 : ℚ) / 2) =
      7205759403792793 / 18014398509481984 := by
    rw [roundDouble_of_bounds _ (-2) (by norm_num) (by norm_num) (by norm_num)]
    have hx : ((7205759403792793 / 9007199254740992 : ℚ) / 2) / 2 ^ ((-2 : ℤ) - 52) =
        7205759403792793 := by
      norm_num
    rw [hx, roundNearestEven_eq_floor _ 7205759403792793 (by norm_num) (by norm_num)]
    norm_num
  have hf4 : roundDouble (4 / 10) = 7205759403792794 / 18014398509481984 := by
    rw [roundDouble_of_bounds (4 / 10) (-2) (by norm_num) (by norm_num) (by norm_num)]
    have hx : (4 / 10 : ℚ) / 2 ^ ((-2 : ℤ) - 52) = 72057594037927936 / 10 := by
      norm_num
    rw [hx, roundNearestEven_eq_ceil _ 7205759403792793 (by norm_num) (by norm_num)]
    norm_num
  refine ⟨?_, by norm_num, ?_⟩
  · rw [← overlapScore_eq_spec, ← overlapScore_eq_spec, h110, h710]
    norm_num
  · rw [evaluate_nonempty _ _ _ (by decide)]
    show decide (roundDouble ((roundDouble
      (roundDouble (overlapScore meanBoundaryContext meanBoundaryActual) +
        roundDouble (overlapScore meanBoundaryAnswer meanBoundaryActual))) / 2) ≥
      roundDouble (4 / 10)) = false
    rw [h110, h710, hf1, hf7, hfsum, hfhalf, hf4, decide_eq_false_iff_not]
    norm_num

/-- C3 (amended): for every non-empty actual response,
`evaluate_response_quality` computes each per-field overlap score as
|expected-field keyword set ∩ response word set| / |expected-field keyword
set| (0 when the expected field is empty), and the overall verdict is pass
if and only if the binary64 evaluation of the mean of the two per-field
scores — each rounded to a double, summed and halved in double
arithmetic — is at least the double value of 0.4. -/
theorem scoring_mean_threshold (actual ec er : String)
    (h : (pyStrip actual).length ≠ 0) :
    (evaluate_response_quality actual ec er).score =
      roundDouble ((roundDouble (roundDouble (specFieldScore ec actual) +
        roundDouble (specFieldScore er actual))) / 2) ∧
    ((evaluate_response_quality actual ec er).passed = true ↔
      roundDouble ((roundDouble (roundDouble (specFieldScore ec actual) +
        roundDouble (specFieldScore er actual))) / 2) ≥ roundDouble (4 / 10)) := by
  have hg : ¬(actual = "" ∨ (pyStrip actual).length = 0) := by
    rintro (h1 | h1)
    · subst h1; exact h (by rw [pyStrip_empty]; rfl)
    · exact h h1
  rw [evaluate_nonempty _ _ _ hg, overlapScore_eq_spec, overlapScore_eq_spec]
  exact ⟨rfl, by simp⟩

/-- Witness for `scoring_mean_threshold` at the spec's Scenario B: the
response shares 2 of 5 expected-context keywords and 0 of 4 expected-answer
keywords. -/
theorem scoring_mean_threshold_witness :
    (pyStrip "w1 w2 q").length ≠ 0 ∧
    ((evaluate_response_quality "w1 w2 q" "w1 w2 w3 w4 w5" "a b c d").score =
      roundDouble ((roundDouble
        (roundDouble (specFieldScore "w1 w2 w3 w4 w5" "w1 w2 q") +
          roundDouble (specFieldScore "a b c d" "w1 w2 q"))) / 2) ∧
    ((evaluate_response_quality "w1 w2 q" "w1 w2 w3 w4 w5" "a b c d").passed = true ↔
      roundDouble ((roundDouble
        (roundDouble (specFieldScore "w1 w2 w3 w4 w5" "w1 w2 q") +
          roundDouble (specFieldScore "a b c d" "w1 w2 q"))) / 2) ≥
        roundDouble (4 / 10))) :=
  ⟨by decide, scoring_mean_threshold "w1 w2 q" "w1 w2 w3 w4 w5" "a b c d" (by decide)⟩

/-- C4 (counterexample): at a per-field score of exactly 0.3 (3 of 10
expected keywords matched) the code's match flag is `false`, refuting the
claim that a score equal to the 0.3 threshold sets the flag true. -/
theorem match_flag_boundary_counterexample :
    specFieldScore "w1 w2 w3 w4 w5 w6 w7 w8 w9 w10" "w1 w2 w3" = 3 / 10 ∧
    (evaluate_response_quality "w1 w2 w3"
      "w1 w2 w3 w4 w5 w6 w7 w8 w9 w10" "x").context_match = false := by
  have hscore : overlapScore "w1 w2 w3 w4 w5 w6 w7 w8 w9 w10" "w1 w2 w3" =
      ((3 : Nat) : ℚ) / ((10 : Nat) : ℚ) :=
    overlapScore_eq_div _ _ 3 10 (by decide) (by decide) (by decide)
  constructor
  · rw [← overlapScore_eq_spec, hscore]; norm_num
  · rw [evaluate_nonempty _ _ _ (by decide)]
    show decide (overlapScore "w1 w2 w3 w4 w5 w6 w7 w8 w9 w10" "w1 w2 w3" > 3 / 10) = false
    rw [hscore, decide_eq_false_iff_not]
    norm_num

/-- C4 (amended): for every evaluation of a non-empty actual response,
the per-field boolean match flag is true exactly when that field's overlap
score is *strictly greater than* the 0.3 threshold (a score of exactly 0.3
leaves the flag false). -/
theorem match_flag_strict_threshold (actual ec er : String)
    (h : (pyStrip actual).length ≠ 0) :
    ((evaluate_response_quality actual ec er).context_match = true ↔
      specFieldScore ec actual > 3 / 10) ∧
    ((evaluate_response_quality actual ec er).answer_match = true ↔
      specFieldScore er actual > 3 / 10) := by
  have hg : ¬(actual = "" ∨ (pyStrip actual).length = 0) := by
    rintro (h1 | h1)
    · subst h1; exact h (by rw [pyStrip_empty]; rfl)
    · exact h h1
  rw [evaluate_nonempty _ _ _ hg, overlapScore_eq_spec, overlapScore_eq_spec]
  constructor <;> simp

/-- Witness for `match_flag_strict_threshold`: 2 of 5 context keywords
matched (0.4 > 0.3 → flag true) and 0 of 4 answer keywords matched. -/
theorem match_flag_strict_threshold_witness :
    (pyStrip "w1 w2 q").length ≠ 0 ∧
    (((evaluate_response_quality "w1 w2 q" "w1 w2 w3 w4 w5" "a b c d").context_match = true ↔
      specFieldScore "w1 w2 w3 w4 w5" "w1 w2 q" > 3 / 10) ∧
    ((evaluate_response_quality "w1 w2 q" "w1 w2 w3 w4 w5" "a b c d").answer_match = true ↔
      specFieldScore "a b c d" "w1 w2 q" > 3 / 10)) :=
  ⟨by decide, match_flag_strict_threshold "w1 w2 q" "w1 w2 w3 w4 w5" "a b c d" (by decide)⟩

/-- C10: whenever the actual response is empty or consists only of
whitespace, `evaluate_response_quality` returns `passed = false`,
`score = 0`, both match flags `false`, and the detail text
"Empty response", without inspecting the expected-context or
expected-answer inputs (the result is the same for any expected texts). -/
theorem empty_response_short_circuit (actual ec er : String)
    (h : (pyStrip actual).length = 0) :
    evaluate_response_quality actual ec er =
      { passed := false, score := 0, context_match := false, answer_match := false
        details := "Empty response" } ∧
    (∀ ec' er', evaluate_response_quality actual ec er =
      evaluate_response_quality actual ec' er') := by
  have hg : actual = "" ∨ (pyStrip actual).length = 0 := Or.inr h
  constructor
  · simp only [evaluate_response_quality, if_pos hg]
  · intro ec' er'
    simp only [evaluate_response_quality, if_pos hg]

/-- Witness for `empty_response_short_circuit` at a whitespace-only
response. -/
theorem empty_response_short_circuit_witness :
    (pyStrip "   ").length = 0 ∧
    (evaluate_response_quality "   " "ctx words" "ans words" =
      { passed := false, score := 0, context_match := false, answer_match := false
        details := "Empty response" } ∧
    (∀ ec' er', evaluate_response_quality "   " "ctx words" "ans words" =
      evaluate_response_quality "   " ec' er')) :=
  ⟨by decide, empty_response_short_circuit "   " "ctx words" "ans words" (by decide)⟩

/-- C5: for all requested question counts Q and dataset sizes, a session
task samples exactly `min(Q, D)` question records, drawn without replacement
from pairwise-distinct dataset positions, each a member of the original
dataset (and hence pairwise distinct as records whenever the dataset rows
are distinct). -/
theorem sampling_bound (test_data : List QuestionData) (Q : Nat) (draw : List Nat)
    (h : ValidDraw test_data Q draw) :
    (random_sample test_data draw).length = min Q test_data.length ∧
    (∀ q ∈ random_sample test_data draw, q ∈ test_data) ∧
    (test_data.Nodup → (random_sample test_data draw).Nodup) := by
  obtain ⟨hnd, hlt, hlen⟩ := h
  refine ⟨by simp [random_sample, hlen], ?_, ?_⟩
  · intro q hq
    rw [random_sample, List.mem_map] at hq
    obtain ⟨i, hi, rfl⟩ := hq
    have hil := hlt i hi
    have hget : test_data.getD i ⟨"", "", ""⟩ = test_data.get ⟨i, hil⟩ := by
      rw [List.getD_eq_getElem?_getD, List.getElem?_eq_getElem hil]
      rfl
    rw [hget]
    exact List.get_mem _ _ _
  · intro hdnd
    rw [random_sample]
    refine List.Nodup.map_on ?_ hnd
    intro i hi j hj hij
    have hil := hlt i hi
    have hjl := hlt j hj
    rw [List.getD_eq_getElem?_getD, List.getElem?_eq_getElem hil,
      List.getD_eq_getElem?_getD, List.getElem?_eq_getElem hjl] at hij
    simp only [Option.getD_some] at hij
    have hfin : (⟨i, hil⟩ : Fin test_data.length) = ⟨j, hjl⟩ :=
      hdnd.get_inj_iff.1 (by simpa using hij)
    exact congrArg Fin.val hfin

/-- Witness for `sampling_bound` at the spec's Scenario A: dataset of 5
questions, requested count 3, drawing positions 0, 2, 4. -/
theorem sampling_bound_witness :
    ValidDraw scenarioAData 3 [0, 2, 4] ∧
    ((random_sample scenarioAData [0, 2, 4]).length = min 3 scenarioAData.length ∧
     (∀ q ∈ random_sample scenarioAData [0, 2, 4], q ∈ scenarioAData) ∧
     (scenarioAData.Nodup → (random_sample scenarioAData [0, 2, 4]).Nodup)) :=
  ⟨by decide, sampling_bound scenarioAData 3 [0, 2, 4] (by decide)⟩

/-- C6 (counterexample): a timed-out question produces a session result
whose verdict is `"timeout"` — neither pass nor fail — so a run summary over
it has `passed_tests + failed_tests ≠ total_tests`, refuting the claim that
every session result's verdict is pass or fail. -/
theorem verdict_pass_fail_counterexample :
    (test_single_question timeoutQEnv "q" "c" "a" "").test_result = "timeout" ∧
    (test_single_question timeoutQEnv "q" "c" "a" "").test_result ≠ "pass" ∧
    (test_single_question timeoutQEnv "q" "c" "a" "").test_result ≠ "fail" ∧
    (aggregate 1 completedW).passed_tests + (aggregate 1 completedW).failed_tests ≠
      (aggregate 1 completedW).total_tests := by
  refine ⟨by decide, by decide, by decide, ?_⟩
  decide

/-- C6 (amended): every session result produced by a question execution
carries one of the four verdicts pass, fail, timeout, error; consequently in
every run summary the pass count plus the fail count plus the timeout count
plus the error count equals the total number of session results aggregated. -/
theorem verdict_partition_aggregate (total : Nat) (completed : List SessionOutcome)
    (hprod : ∀ o ∈ completed, ∀ r ∈ o.results,
      ∃ env q ec er mn, r = test_single_question env q ec er mn) :
    (∀ o ∈ completed, ∀ r ∈ o.results,
      r.test_result ∈ (["pass", "fail", "timeout", "error"] : List String)) ∧
    (aggregate total completed).passed_tests + (aggregate total completed).failed_tests +
      (allResults completed).countP (fun r => r.test_result = "timeout") +
      (allResults completed).countP (fun r => r.test_result = "error") =
      (aggregate total completed).total_tests := by
  have hv : ∀ o ∈ completed, ∀ r ∈ o.results,
      r.test_result ∈ (["pass", "fail", "timeout", "error"] : List String) := by
    intro o ho r hr
    obtain ⟨env, q, ec, er, mn, rfl⟩ := hprod o ho r hr
    exact test_single_question_verdict env q ec er mn
  refine ⟨hv, ?_⟩
  have hall : ∀ r ∈ allResults completed,
      r.test_result ∈ (["pass", "fail", "timeout", "error"] : List String) := by
    intro r hr
    rw [allResults, List.mem_flatMap] at hr
    obtain ⟨o, ho, hro⟩ := hr
    exact hv o (List.mem_of_mem_filter ho) r hro
  simpa [aggregate] using countP_verdict_partition (allResults completed) hall

/-- Witness for `verdict_partition_aggregate` over a run that aggregated one
timed-out result. -/
theorem verdict_partition_aggregate_witness :
    (∀ o ∈ completedW, ∀ r ∈ o.results,
      ∃ env q ec er mn, r = test_single_question env q ec er mn) ∧
    ((∀ o ∈ completedW, ∀ r ∈ o.results,
      r.test_result ∈ (["pass", "fail", "timeout", "error"] : List String)) ∧
    (aggregate 1 completedW).passed_tests + (aggregate 1 completedW).failed_tests +
      (allResults completedW).countP (fun r => r.test_result = "timeout") +
      (allResults completedW).countP (fun r => r.test_result = "error") =
      (aggregate 1 completedW).total_tests) := by
  have hprod : ∀ o ∈ completedW, ∀ r ∈ o.results,
      ∃ env q ec er mn, r = test_single_question env q ec er mn := by
    intro o ho r hr
    simp only [completedW, List.mem_singleton] at ho
    subst ho
    simp only [List.mem_singleton] at hr
    subst hr
    exact ⟨timeoutQEnv, "q", "c", "a", "", rfl⟩
  exact ⟨hprod, verdict_partition_aggregate 1 completedW hprod⟩

/-- C7: a per-question response timeout is question-fatal only — the
recorded result for the timed-out question has the `"timeout"` verdict and a
non-null screenshot capture, while every question of the session (the
remaining ones included) still yields exactly one result. -/
theorem timeout_question_fatal_only (qs : List (QuestionData × QuestionEnv))
    (mn : String) (i : Nat) (p : QuestionData × QuestionEnv)
    (hp : qs[i]? = some p)
    (hr : p.2.raisesError = false) (ht : p.2.responseReceived = false) :
    (test_multiple_questions qs mn).length = qs.length ∧
    (test_multiple_questions qs mn)[i]? = some (test_single_question p.2
      p.1.question p.1.expected_context p.1.expected_result mn) ∧
    (test_single_question p.2 p.1.question p.1.expected_context
      p.1.expected_result mn).test_result = "timeout" ∧
    (test_single_question p.2 p.1.question p.1.expected_context
      p.1.expected_result mn).evident = some p.2.screenshot ∧
    (∀ (j : Nat) (q : QuestionData × QuestionEnv), qs[j]? = some q →
      (test_multiple_questions qs mn)[j]? = some (test_single_question q.2
        q.1.question q.1.expected_context q.1.expected_result mn)) := by
  refine ⟨by simp [test_multiple_questions], ?_, ?_, ?_, ?_⟩
  · rw [test_multiple_questions, List.getElem?_map, hp]
    rfl
  · simp [test_single_question, hr, ht]
  · simp [test_single_question, hr, ht]
  · intro j q hq
    rw [test_multiple_questions, List.getElem?_map, hq]
    rfl

/-- Witness for `timeout_question_fatal_only`: a two-question session whose
first question times out while the second answers normally. -/
theorem timeout_question_fatal_only_witness :
    ([(⟨"q1", "c1", "a1"⟩, timeoutQEnv), (⟨"q2", "c2", "a2"⟩, okQEnv)] :
        List (QuestionData × QuestionEnv))[0]? =
      some (⟨"q1", "c1", "a1"⟩, timeoutQEnv) ∧
    timeoutQEnv.raisesError = false ∧ timeoutQEnv.responseReceived = false ∧
    ((test_multiple_questions
        [(⟨"q1", "c1", "a1"⟩, timeoutQEnv), (⟨"q2", "c2", "a2"⟩, okQEnv)] "").length =
      ([(⟨"q1", "c1", "a1"⟩, timeoutQEnv), (⟨"q2", "c2", "a2"⟩, okQEnv)] :
        List (QuestionData × QuestionEnv)).length ∧
     (test_multiple_questions
        [(⟨"q1", "c1", "a1"⟩, timeoutQEnv), (⟨"q2", "c2", "a2"⟩, okQEnv)] "")[0]? =
      some (test_single_question timeoutQEnv "q1" "c1" "a1" "") ∧
     (test_single_question timeoutQEnv "q1" "c1" "a1" "").test_result = "timeout" ∧
     (test_single_question timeoutQEnv "q1" "c1" "a1" "").evident =
      some timeoutQEnv.screenshot ∧
     (∀ (j : Nat) (q : QuestionData × QuestionEnv),
      ([(⟨"q1", "c1", "a1"⟩, timeoutQEnv), (⟨"q2", "c2", "a2"⟩, okQEnv)] :
        List (QuestionData × QuestionEnv))[j]? = some q →
      (test_multiple_questions
        [(⟨"q1", "c1", "a1"⟩, timeoutQEnv), (⟨"q2", "c2", "a2"⟩, okQEnv)] "")[j]? =
        some (test_single_question q.2 q.1.question q.1.expected_context
          q.1.expected_result ""))) :=
  ⟨by decide, by decide, by decide,
    timeout_question_fatal_only
      [(⟨"q1", "c1", "a1"⟩, timeoutQEnv), (⟨"q2", "c2", "a2"⟩, okQEnv)] "" 0
      (⟨"q1", "c1", "a1"⟩, timeoutQEnv) (by decide) (by decide) (by decide)⟩

/-- C2 (counterexample): a session whose `export_chatbot_results` call
raises — after the question loop already assigned `results` — returns a
failed outcome whose result list is *not* empty, refuting the claim that
every exception inside the session task yields an empty result list. -/
theorem session_exception_results_counterexample :
    exportFailSessionEnv.raiseAt.isSome = true ∧
    (test_single_user exportFailSessionEnv "user1").success = false ∧
    (test_single_user exportFailSessionEnv "user1").results ≠ [] := by
  refine ⟨by decide, by decide, by decide⟩

/-- C2 (amended): for every session-fatal failure — an authentication
error reported at login, or an exception raised at any stage of the session
task — the task returns a Session Outcome with `success = false` and never
re-raises; the result list is empty whenever the login error fired or the
exception was raised before result collection, while an exception raised
after result collection (during report export) returns the already
collected results. -/
theorem session_failure_outcome (env : SessionEnv) (u : String)
    (h : env.loginError = true ∨ env.raiseAt.isSome = true) :
    (test_single_user env u).success = false ∧
    ((env.loginError = true ∨ env.raiseAt ≠ some .export) →
      (test_single_user env u).results = []) ∧
    (env.loginError = false → env.raiseAt = some .export →
      (test_single_user env u).results =
        test_multiple_questions env.questions env.modelName) := by
  rcases hr : env.raiseAt with _ | s
  · have hl : env.loginError = true := by
      rcases h with h | h
      · exact h
      · rw [hr] at h; simp at h
    refine ⟨?_, ?_, ?_⟩ <;> simp [test_single_user, sessionTryBody, hr, hl]
  · cases s <;> cases hl : env.loginError <;>
      (refine ⟨?_, ?_, ?_⟩ <;> simp [test_single_user, sessionTryBody, hr, hl])

/-- Witness for `session_failure_outcome` at the export-failure session. -/
theorem session_failure_outcome_witness :
    (exportFailSessionEnv.loginError = true ∨
      exportFailSessionEnv.raiseAt.isSome = true) ∧
    ((test_single_user exportFailSessionEnv "user1").success = false ∧
     ((exportFailSessionEnv.loginError = true ∨
        exportFailSessionEnv.raiseAt ≠ some .export) →
       (test_single_user exportFailSessionEnv "user1").results = []) ∧
     (exportFailSessionEnv.loginError = false →
      exportFailSessionEnv.raiseAt = some .export →
       (test_single_user exportFailSessionEnv "user1").results =
         test_multiple_questions exportFailSessionEnv.questions
           exportFailSessionEnv.modelName)) :=
  ⟨Or.inr (by decide),
    session_failure_outcome exportFailSessionEnv "user1" (Or.inr (by decide))⟩

/-- C8: aggregation is order-independent — any two completion orders of
the same outcomes yield identical run-summary counts. -/
theorem aggregation_order_independent (total : Nat)
    (completed₁ completed₂ : List SessionOutcome)
    (h : completed₁.Perm completed₂) :
    aggregate total completed₁ = aggregate total completed₂ :=
  aggregate_perm total h

/-- Witness for `aggregation_order_independent`: the two completion orders
of a clean session and a crashed session. -/
theorem aggregation_order_independent_witness :
    ([test_single_user crashSessionEnv "u2", test_single_user cleanSessionEnv "u1"].Perm
      [test_single_user cleanSessionEnv "u1", test_single_user crashSessionEnv "u2"]) ∧
    aggregate 2 [test_single_user crashSessionEnv "u2",
        test_single_user cleanSessionEnv "u1"] =
      aggregate 2 [test_single_user cleanSessionEnv "u1",
        test_single_user crashSessionEnv "u2"] :=
  ⟨List.Perm.swap _ _ _,
    aggregation_order_independent 2 _ _ (List.Perm.swap _ _ _)⟩

/-- Every list of outcomes is partitioned by its success flag. -/
theorem countP_success_partition (l : List SessionOutcome) :
    l.countP (fun o => o.success) + l.countP (fun o => !o.success) = l.length := by
  induction l with
  | nil => simp
  | cons o l ih =>
    simp only [List.countP_cons, List.length_cons]
    cases h : o.success <;> simp [h] <;> omega

/-- The success flag of each submitted task, under the C1 hypothesis that
non-raising sessions log in cleanly. -/
theorem test_single_user_success_of_ok (roster : List (String × SessionEnv))
    (hok : ∀ p ∈ roster, p.2.raiseAt = none → p.2.loginError = false) :
    ∀ p ∈ roster, (test_single_user p.2 p.1).success = !p.2.raiseAt.isSome := by
  intro p hp
  rcases hrp : p.2.raiseAt with _ | s
  · have hl := hok p hp hrp
    rw [test_single_user_clean p.2 p.1 hrp hl]
    simp
  · have hne : ¬((test_single_user p.2 p.1).success = true) := by
      rw [test_single_user_success]
      rintro ⟨h1, _⟩
      rw [hrp] at h1
      cases h1
    rw [Bool.not_eq_true] at hne
    rw [hne]
    simp

/-- C1: for every roster of N submitted credentials in which exactly K
session tasks raise an exception (and the rest log in cleanly),
`run_parallel_tests` produces exactly one Session Outcome per submitted
credential — none dropped, in any completion order — and its run summary
reports N total sessions, K failed sessions and N − K successful sessions,
with each non-raising session completing unaffected with its full results. -/
theorem fault_isolation_run_summary (roster : List (String × SessionEnv))
    (completed : List SessionOutcome)
    (hperm : completed.Perm (sessionOutcomes roster))
    (hok : ∀ p ∈ roster, p.2.raiseAt = none → p.2.loginError = false) :
    (sessionOutcomes roster).length = roster.length ∧
    (sessionOutcomes roster).map (fun o => o.user) = roster.map (fun p => p.1) ∧
    (run_parallel_tests roster completed).total_users = roster.length ∧
    (run_parallel_tests roster completed).failed_users =
      roster.countP (fun p => p.2.raiseAt.isSome) ∧
    (run_parallel_tests roster completed).successful_users =
      roster.length - roster.countP (fun p => p.2.raiseAt.isSome) ∧
    (∀ p ∈ roster, p.2.raiseAt = none →
      test_single_user p.2 p.1 =
        ⟨p.1, true, test_multiple_questions p.2.questions p.2.modelName⟩) := by
  have hsucc := test_single_user_success_of_ok roster hok
  have hagg : run_parallel_tests roster completed =
      aggregate roster.length (sessionOutcomes roster) :=
    aggregate_perm roster.length hperm
  have hfail : (sessionOutcomes roster).countP (fun o => !o.success) =
      roster.countP (fun p => p.2.raiseAt.isSome) := by
    rw [sessionOutcomes, List.countP_map]
    refine countP_congr_bool roster _ _ (fun p hp => ?_)
    show (!(test_single_user p.2 p.1).success) = p.2.raiseAt.isSome
    rw [hsucc p hp, Bool.not_not]
  have hsuc : (sessionOutcomes roster).countP (fun o => o.success) =
      roster.length - roster.countP (fun p => p.2.raiseAt.isSome) := by
    have hpart := countP_success_partition (sessionOutcomes roster)
    have hlen : (sessionOutcomes roster).length = roster.length := by
      simp [sessionOutcomes]
    omega
  refine ⟨by simp [sessionOutcomes], ?_, ?_, ?_, ?_, ?_⟩
  · rw [sessionOutcomes, List.map_map]
    exact List.map_congr_left (fun p _ => test_single_user_user p.2 p.1)
  · rw [hagg]; rfl
  · rw [hagg]; exact hfail
  · rw [hagg]; exact hsuc
  · intro p hp hrp
    exact test_single_user_clean p.2 p.1 hrp (hok p hp hrp)

/-- Witness for `fault_isolation_run_summary` at the roster of Scenario C's
shape (scaled to three credentials, one of which always raises). -/
theorem fault_isolation_run_summary_witness :
    ((sessionOutcomes [("u1", cleanSessionEnv), ("u2", crashSessionEnv),
        ("u3", cleanSessionEnv)]).Perm
      (sessionOutcomes [("u1", cleanSessionEnv), ("u2", crashSessionEnv),
        ("u3", cleanSessionEnv)])) ∧
    (∀ p ∈ ([("u1", cleanSessionEnv), ("u2", crashSessionEnv),
        ("u3", cleanSessionEnv)] : List (String × SessionEnv)),
      p.2.raiseAt = none → p.2.loginError = false) ∧
    ((run_parallel_tests [("u1", cleanSessionEnv), ("u2", crashSessionEnv),
        ("u3", cleanSessionEnv)]
      (sessionOutcomes [("u1", cleanSessionEnv), ("u2", crashSessionEnv),
        ("u3", cleanSessionEnv)])).total_users = 3 ∧
     (run_parallel_tests [("u1", cleanSessionEnv), ("u2", crashSessionEnv),
        ("u3", cleanSessionEnv)]
      (sessionOutcomes [("u1", cleanSessionEnv), ("u2", crashSessionEnv),
        ("u3", cleanSessionEnv)])).failed_users = 1 ∧
     (run_parallel_tests [("u1", cleanSessionEnv), ("u2", crashSessionEnv),
        ("u3", cleanSessionEnv)]
      (sessionOutcomes [("u1", cleanSessionEnv), ("u2", crashSessionEnv),
        ("u3", cleanSessionEnv)])).successful_users = 2) := by
  have hres := fault_isolation_run_summary
    [("u1", cleanSessionEnv), ("u2", crashSessionEnv), ("u3", cleanSessionEnv)]
    (sessionOutcomes [("u1", cleanSessionEnv), ("u2", crashSessionEnv),
      ("u3", cleanSessionEnv)])
    (List.Perm.refl _) (by decide)
  refine ⟨List.Perm.refl _, by decide, ?_, ?_, ?_⟩
  · exact hres.2.2.1
  · rw [hres.2.2.2.1]; decide
  · rw [hres.2.2.2.2.1]; decide

end AiknowParallel
